import Mathlib

/-!
Verification of the shift-time accounting and aggregation engine of the
AFL machine-log backend (`project/logs/views.py`).

The report endpoints are shallowly embedded over lists of `MachineLog`
records.  Clock arithmetic, durations and the derived metrics are modelled
in exact rational arithmetic (`ℚ`); the database queryset operations
(annotate / filter / exclude / values-annotate groupings / aggregates)
become list filters, maps and sums.  Presentation-boundary rounding
(`round(x, 2)` in Python) is modelled exactly by `pyRound2`
(round-half-to-even on hundredths, Python's rounding mode).
-/

namespace AFL

/-- Wall-clock time of day, as read by the `ExtractHour` / `ExtractMinute` /
`ExtractSecond` annotations in `logs/views.py`. -/
structure Time where
  hour : ℕ
  minute : ℕ
  second : ℕ

/-- One row of the `MachineLog` table (`logs/models.py`).  `RESERVE` is a
nullable text column holding a numeric speed sample; it is modelled already
coerced: `some v` for a numeric value, `none` for SQL `NULL`.  `DATE` is an
abstract calendar-day ordinal, since the reports only group dates and
compare them for equality. -/
structure MachineLog where
  MACHINE_ID : ℤ
  LINE_NUMBER : ℤ
  OPERATOR_ID : String
  DATE : ℤ
  START_TIME : Time
  END_TIME : Time
  MODE : ℤ
  OPERATION_COUNT : ℤ
  SKIP_COUNT : ℚ
  RESERVE : Option ℤ

/-- `time_to_seconds` (`views.py:216`) and the `start_seconds` / `end_seconds`
annotations: `hour*3600 + minute*60 + second`. -/
def time_seconds (t : Time) : ℤ :=
  t.hour * 3600 + t.minute * 60 + t.second

/-- The `start_seconds` annotation (FloatField). -/
def start_seconds (l : MachineLog) : ℚ := (time_seconds l.START_TIME : ℚ)

/-- The `end_seconds` annotation (FloatField). -/
def end_seconds (l : MachineLog) : ℚ := (time_seconds l.END_TIME : ℚ)

/-- `reserve_numeric = Cast('RESERVE', IntegerField)`: SQL `NULL` passes
through the cast as `NULL`. -/
def reserve_numeric (l : MachineLog) : Option ℤ := l.RESERVE

/-- The integer value of a coerced `RESERVE` sample (0 for `NULL`); only read
on rows that passed a `reserve_numeric__gt=0` filter, where it is the value. -/
def reserve_int (l : MachineLog) : ℤ := (reserve_numeric l).getD 0

/-- The filter condition `reserve_numeric__gt=0`: SQL `NULL > 0` is not true. -/
def reserve_positive (l : MachineLog) : Bool :=
  match reserve_numeric l with
  | some v => decide (0 < v)
  | none => false

/-- `Avg(Case(When(reserve_numeric__gt=0, then=reserve_numeric), default=0))`
assigns this value to every row of a group: the sample when positive,
otherwise 0 (also for `NULL`, which fails the `When` test). -/
def reserve_case_value (l : MachineLog) : ℚ :=
  match reserve_numeric l with
  | some v => if 0 < v then (v : ℚ) else 0
  | none => 0

/-! ### Operator report family (`operator_reports_by_name`, `operator_reports_all`)

Working window 08:30-19:30, clamped; durations of clamped spans; a
positive-duration filter; break exclusion with the 10.5/10.6667/13.3333/14/
16.3333/16.5 hour constants of `views.py:325-359`. -/

/-- `adjusted_start_seconds` (`views.py:325-330`): clamp the start into the
08:30-19:30 window. -/
def adjusted_start_seconds (l : MachineLog) : ℚ :=
  if start_seconds l < 8.5 * 3600 then 8.5 * 3600
  else if start_seconds l > 19.5 * 3600 then 19.5 * 3600
  else start_seconds l

/-- `adjusted_end_seconds` (`views.py:331-336`). -/
def adjusted_end_seconds (l : MachineLog) : ℚ :=
  if end_seconds l < 8.5 * 3600 then 8.5 * 3600
  else if end_seconds l > 19.5 * 3600 then 19.5 * 3600
  else end_seconds l

/-- `duration_hours` of the operator family (`views.py:338-350`): zero when the
span lies entirely outside the window, otherwise the clamped span in hours. -/
def op_duration_hours (l : MachineLog) : ℚ :=
  if end_seconds l ≤ 8.5 * 3600 ∨ start_seconds l ≥ 19.5 * 3600 then 0
  else (adjusted_end_seconds l - adjusted_start_seconds l) / 3600

/-- `logs.exclude(Q(OPERATOR_ID=0) & Q(MODE=2))` (`views.py:308`, `views.py:1192`). -/
def op_exclude_id0_mode2 (logs : List MachineLog) : List MachineLog :=
  logs.filter fun l => !(decide (l.OPERATOR_ID = "0") && decide (l.MODE = 2))

/-- `.filter(duration_hours__gt=0)` (`views.py:352`, `views.py:1231`). -/
def op_duration_filter (logs : List MachineLog) : List MachineLog :=
  logs.filter fun l => decide (0 < op_duration_hours l)

/-- The break condition of the operator family (`views.py:355-359`): a log lies
entirely inside one of the three configured breaks. -/
def op_in_break (l : MachineLog) : Bool :=
  (decide (start_seconds l ≥ 10.5 * 3600) && decide (end_seconds l ≤ 10.6667 * 3600)) ||
  (decide (start_seconds l ≥ 13.3333 * 3600) && decide (end_seconds l ≤ 14 * 3600)) ||
  (decide (start_seconds l ≥ 16.3333 * 3600) && decide (end_seconds l ≤ 16.5 * 3600))

/-- `logs.exclude(break conditions)` of the operator family. -/
def op_break_filter (logs : List MachineLog) : List MachineLog :=
  logs.filter fun l => !op_in_break l

/-- The whole record-selection pipeline of the operator family, in source
order: exclude (id=0 ∧ mode=2), keep positive clamped durations, drop
in-break logs (`views.py:307-359`). -/
def op_filtered (logs : List MachineLog) : List MachineLog :=
  op_break_filter (op_duration_filter (op_exclude_id0_mode2 logs))

/-! ### Line / machine / global report family

`line_reports` (`views.py:725-756`), `machine_reports` (`views.py:1020-1051`)
and `all_machines_report` (`views.py:1109-1134`) annotate the raw span
`(end_seconds - start_seconds)/3600` (no clamping, no positivity filter),
keep only logs with `start_seconds >= 30300` and `end_seconds <= 70500`
(08:25-19:35), and exclude the three integer-second break windows.  All three
endpoints also pre-filter `OPERATOR_ID__in=valid_operators`
(`views.py:699/704`, `views.py:996/999`, `views.py:1082`). -/

/-- `duration_hours` of the line/machine/global family: raw span in hours. -/
def lm_duration_hours (l : MachineLog) : ℚ :=
  (end_seconds l - start_seconds l) / 3600

/-- `MachineLog.objects.filter(OPERATOR_ID__in=valid_operators)`. -/
def lm_operator_filter (validOps : List String) (logs : List MachineLog) : List MachineLog :=
  logs.filter fun l => decide (l.OPERATOR_ID ∈ validOps)

/-- `.filter(start_seconds__gte=30300, end_seconds__lte=70500)`. -/
def lm_window_filter (logs : List MachineLog) : List MachineLog :=
  logs.filter fun l => decide (start_seconds l ≥ 30300) && decide (end_seconds l ≤ 70500)

/-- The break condition of the line/machine/global family
(`views.py:752-756`): entirely inside 10:30-10:40, 13:20-14:00 or 16:20-16:30. -/
def lm_in_break (l : MachineLog) : Bool :=
  (decide (start_seconds l ≥ 37800) && decide (end_seconds l ≤ 38400)) ||
  (decide (start_seconds l ≥ 48000) && decide (end_seconds l ≤ 50400)) ||
  (decide (start_seconds l ≥ 58800) && decide (end_seconds l ≤ 59400))

/-- `logs.exclude(break conditions)` of the line/machine/global family. -/
def lm_break_filter (logs : List MachineLog) : List MachineLog :=
  logs.filter fun l => !lm_in_break l

/-- Record selection shared verbatim by `line_reports`, `machine_reports` and
`all_machines_report`: operator directory filter, working-window filter,
break exclusion, in source order. -/
def lm_filtered (validOps : List String) (logs : List MachineLog) : List MachineLog :=
  lm_break_filter (lm_window_filter (lm_operator_filter validOps logs))

/-- The selection used by `line_reports` (`views.py:699-756`). -/
def line_filtered (validOps : List String) (logs : List MachineLog) : List MachineLog :=
  lm_filtered validOps logs

/-- The selection used by `machine_reports` (`views.py:996-1051`). -/
def machine_filtered (validOps : List String) (logs : List MachineLog) : List MachineLog :=
  lm_filtered validOps logs

/-- The selection used by `all_machines_report` (`views.py:1082-1134`). -/
def all_machines_filtered (validOps : List String) (logs : List MachineLog) : List MachineLog :=
  lm_filtered validOps logs

/-! ### Presentation rounding

Python's `round(x, 2)` rounds to the nearest hundredth, ties to even. -/

/-- Round a rational to the nearest integer, ties to the even integer
(Python's rounding mode). -/
def roundHalfEven (y : ℚ) : ℤ :=
  if y - ⌊y⌋ < 1 / 2 then ⌊y⌋
  else if 1 / 2 < y - ⌊y⌋ then ⌊y⌋ + 1
  else if ⌊y⌋ % 2 = 0 then ⌊y⌋ else ⌊y⌋ + 1

/-- Python's `round(x, 2)`. -/
def pyRound2 (x : ℚ) : ℚ := (roundHalfEven (x * 100) : ℚ) / 100

/-! ### List-sum toolkit

The queryset `values('DATE').annotate(...)` groupings become: deduplicated
key list, then per-key filtered sums.  These lemmas let grouped sums be
re-read as flat sums over the whole log list. -/

/-! ### Operator report aggregates (`operator_reports_by_name`, views.py:361-512) -/

/-- `logs.values('DATE').distinct()`. -/
def distinct_dates (logs : List MachineLog) : List ℤ :=
  (logs.map (·.DATE)).dedup

/-- `total_working_days` (`views.py:362`), computed on the filtered logs. -/
def op_total_working_days (logs : List MachineLog) : ℕ :=
  (distinct_dates (op_filtered logs)).length

/-- `total_available_hours = total_working_days * 10` (`views.py:363`). -/
def op_total_available_hours (logs : List MachineLog) : ℚ :=
  (op_total_working_days logs : ℚ) * 10

/-- Reading `logs.values('MODE').annotate(total_hours=Sum('duration_hours'))`
at one mode code: the summed duration of the logs with that mode, 0 when the
mode is absent. -/
def mode_duration_sum (dur : MachineLog → ℚ) (m : ℤ) (logs : List MachineLog) : ℚ :=
  ((logs.filter fun l => l.MODE = m).map dur).sum

/-- `total_production_hours` (`views.py:371-379`). -/
def total_production_hours (logs : List MachineLog) : ℚ :=
  mode_duration_sum op_duration_hours 1 (op_filtered logs)

/-- `total_meeting_hours` (mode 4). -/
def total_meeting_hours (logs : List MachineLog) : ℚ :=
  mode_duration_sum op_duration_hours 4 (op_filtered logs)

/-- `total_no_feeding_hours` (mode 3). -/
def total_no_feeding_hours (logs : List MachineLog) : ℚ :=
  mode_duration_sum op_duration_hours 3 (op_filtered logs)

/-- `total_maintenance_hours` (mode 5). -/
def total_maintenance_hours (logs : List MachineLog) : ℚ :=
  mode_duration_sum op_duration_hours 5 (op_filtered logs)

/-- `total_idle_hours` (`views.py:388-393`): derived by subtraction from the
nominal baseline and floored at zero. -/
def total_idle_hours (logs : List MachineLog) : ℚ :=
  max (op_total_available_hours logs -
    (total_production_hours logs + total_no_feeding_hours logs +
      total_meeting_hours logs + total_maintenance_hours logs)) 0

/-- `total_non_production_hours` (`views.py:396-401`). -/
def total_non_production_hours (logs : List MachineLog) : ℚ :=
  total_no_feeding_hours logs + total_meeting_hours logs +
    total_maintenance_hours logs + total_idle_hours logs

/-- `production_percentage` (`views.py:404`). -/
def production_percentage (logs : List MachineLog) : ℚ :=
  if 0 < op_total_available_hours logs then
    total_production_hours logs / op_total_available_hours logs * 100
  else 0

/-- `npt_percentage` (`views.py:405`). -/
def npt_percentage (logs : List MachineLog) : ℚ :=
  if 0 < op_total_available_hours logs then
    total_non_production_hours logs / op_total_available_hours logs * 100
  else 0

/-- `valid_speed_logs = logs.filter(reserve_numeric__gt=0)` (`views.py:408`). -/
def valid_speed_logs (logs : List MachineLog) : List MachineLog :=
  (op_filtered logs).filter reserve_positive

/-- `average_sewing_speed = Avg('reserve_numeric') or 0` over the positive
speed samples (`views.py:409-411`). -/
def average_sewing_speed (logs : List MachineLog) : ℚ :=
  if 0 < (valid_speed_logs logs).length then
    ((valid_speed_logs logs).map fun l => (reserve_int l : ℚ)).sum /
      ((valid_speed_logs logs).length : ℚ)
  else 0

/-- `sewing_logs = logs.filter(MODE=1)` (`views.py:419`). -/
def sewing_logs (logs : List MachineLog) : List MachineLog :=
  (op_filtered logs).filter fun l => l.MODE = 1

/-- `total_SKIP_COUNT` over production-mode logs (`views.py:420-422`). -/
def total_SKIP_COUNT (logs : List MachineLog) : ℚ :=
  ((sewing_logs logs).map (·.SKIP_COUNT)).sum

/-- `SKIP_COUNT_instances` (`views.py:424`). -/
def SKIP_COUNT_instances (logs : List MachineLog) : ℕ :=
  (sewing_logs logs).length

/-- `average_SKIP_COUNT` (`views.py:425`). -/
def average_SKIP_COUNT (logs : List MachineLog) : ℚ :=
  if 0 < SKIP_COUNT_instances logs then
    total_SKIP_COUNT logs / (SKIP_COUNT_instances logs : ℚ)
  else 0

/-- `SKIP_COUNT_percentage` (`views.py:428-429`): skip-count hours over
production hours. -/
def SKIP_COUNT_percentage (logs : List MachineLog) : ℚ :=
  if 0 < total_production_hours logs then
    total_SKIP_COUNT logs / 3600 / total_production_hours logs * 100
  else 0

/-- `"totalIdleHours": round(total_idle_hours, 2)` (`views.py:501`). -/
def reported_totalIdleHours (logs : List MachineLog) : ℚ :=
  pyRound2 (total_idle_hours logs)

/-- `"averageSewingSpeed": round(average_sewing_speed, 2)` (`views.py:504`). -/
def reported_averageSewingSpeed (logs : List MachineLog) : ℚ :=
  pyRound2 (average_sewing_speed logs)

/-! ### Operator daily table (`views.py:432-496`)

`table_data` groups the filtered logs by `(DATE, OPERATOR_ID)`; a row is
computed from one such group `g`. -/

/-- `sewing_hours=Sum(Case(When(MODE=1, then=duration_hours), default=0))`. -/
def op_row_sewing_hours (g : List MachineLog) : ℚ :=
  (g.map fun l => if l.MODE = 1 then op_duration_hours l else 0).sum

/-- Meeting bucket (mode 4) of a daily row. -/
def op_row_meeting_hours (g : List MachineLog) : ℚ :=
  (g.map fun l => if l.MODE = 4 then op_duration_hours l else 0).sum

/-- No-feeding bucket (mode 3) of a daily row. -/
def op_row_no_feeding_hours (g : List MachineLog) : ℚ :=
  (g.map fun l => if l.MODE = 3 then op_duration_hours l else 0).sum

/-- Maintenance bucket (mode 5) of a daily row. -/
def op_row_maintenance_hours (g : List MachineLog) : ℚ :=
  (g.map fun l => if l.MODE = 5 then op_duration_hours l else 0).sum

/-- `sewing_speed=Avg(Case(When(reserve_numeric__gt=0, then=reserve_numeric),
default=Value(0)))` (`views.py:454-458`): every row of the group enters the
denominator, non-positive and NULL samples as value 0. -/
def op_row_sewing_speed (g : List MachineLog) : ℚ :=
  if 0 < g.length then (g.map reserve_case_value).sum / (g.length : ℚ) else 0

/-- `idle_hours = Value(10) - (sewing + meeting + no_feeding + maintenance)`
(`views.py:462-464`), not floored at this stage. -/
def op_row_idle_hours (g : List MachineLog) : ℚ :=
  10 - (op_row_sewing_hours g + op_row_meeting_hours g +
    op_row_no_feeding_hours g + op_row_maintenance_hours g)

/-- `productive_time_percentage = sewing_hours / 10 * 100` (`views.py:465`). -/
def op_row_productive_time_percentage (g : List MachineLog) : ℚ :=
  op_row_sewing_hours g / 10 * 100

/-- `npt_percentage = 100 - (sewing_hours / 10) * 100` (`views.py:466`). -/
def op_row_npt_percentage (g : List MachineLog) : ℚ :=
  100 - op_row_sewing_hours g / 10 * 100

/-- One formatted row of the operator daily table (`views.py:481-496`). -/
structure OpTableRow where
  totalHours : ℚ
  sewingHours : ℚ
  idleHours : ℚ
  meetingHours : ℚ
  noFeedingHours : ℚ
  maintenanceHours : ℚ
  ptPercentage : ℚ
  nptPercentage : ℚ
  sewingSpeed : ℚ

/-- The formatted operator daily-table row: `'Total Hours': round(10, 2)`,
`'Idle Hours': round(max(idle_hours, 0), 2)`, percentages rounded. -/
def op_formatted_row (g : List MachineLog) : OpTableRow :=
  { totalHours := pyRound2 10
  , sewingHours := pyRound2 (op_row_sewing_hours g)
  , idleHours := pyRound2 (max (op_row_idle_hours g) 0)
  , meetingHours := pyRound2 (op_row_meeting_hours g)
  , noFeedingHours := pyRound2 (op_row_no_feeding_hours g)
  , maintenanceHours := pyRound2 (op_row_maintenance_hours g)
  , ptPercentage := pyRound2 (op_row_productive_time_percentage g)
  , nptPercentage := pyRound2 (op_row_npt_percentage g)
  , sewingSpeed := pyRound2 (op_row_sewing_speed g) }

/-! ### Operator summary report `operator_reports_all` (`views.py:1179-1263`)

Same record pipeline and available-hours baseline as
`operator_reports_by_name`; it reports no idle field, only
`total_non_production_hours = total_available_hours - total_production_hours`
(`views.py:1251`), with no flooring. -/

/-- `total_non_production_hours` of `operator_reports_all` (`views.py:1251`). -/
def op_all_total_non_production_hours (logs : List MachineLog) : ℚ :=
  op_total_available_hours logs - total_production_hours logs

/-- `npt_percentage = 100 - production_percentage` of `operator_reports_all`
(`views.py:1254`). -/
def op_all_npt_percentage (logs : List MachineLog) : ℚ :=
  100 - production_percentage logs

/-- `"totalNonProductionHours": round(..., 2)` (`views.py:1260`). -/
def op_all_reported_totalNonProductionHours (logs : List MachineLog) : ℚ :=
  pyRound2 (op_all_total_non_production_hours logs)

/-! ### Line reports (`process_line_data`, `views.py:521-688`)

`process_line_data` receives the already-filtered logs of one line.  Its
daily table groups by `DATE` (direct-idle policy: mode 2 summed like any
other bucket, the day's total is the sum of all five buckets); the summary
totals are accumulated over the daily rows. -/

/-- `logs.filter(MODE=2)` summed: `total_ideal_hours` (`views.py:524-527`). -/
def total_ideal_hours (logs : List MachineLog) : ℚ :=
  ((logs.filter fun l => l.MODE = 2).map lm_duration_hours).sum

/-- The `DATE` keys of `logs.values('DATE').annotate(...)`. -/
def daily_dates (logs : List MachineLog) : List ℤ :=
  (logs.map (·.DATE)).dedup

/-- The rows of one `DATE` group. -/
def day_group (logs : List MachineLog) (d : ℤ) : List MachineLog :=
  logs.filter fun l => l.DATE = d

/-- `total_working_days = len(daily_machine_counts)` (`views.py:535`). -/
def line_total_working_days (logs : List MachineLog) : ℕ :=
  (daily_dates logs).length

/-- `machine_count=Count('MACHINE_ID', distinct=True)` for one day. -/
def daily_machine_count (logs : List MachineLog) (d : ℤ) : ℕ :=
  (((day_group logs d).map (·.MACHINE_ID)).dedup).length

/-- `average_machines` (`views.py:536`). -/
def average_machines (logs : List MachineLog) : ℚ :=
  if 0 < line_total_working_days logs then
    ((daily_dates logs).map fun d => (daily_machine_count logs d : ℚ)).sum /
      (line_total_working_days logs : ℚ)
  else 0

/-- Daily sewing bucket (mode 1), raw line-family durations. -/
def line_row_sewing_hours (g : List MachineLog) : ℚ :=
  (g.map fun l => if l.MODE = 1 then lm_duration_hours l else 0).sum

/-- Daily no-feeding bucket (mode 3). -/
def line_row_no_feeding_hours (g : List MachineLog) : ℚ :=
  (g.map fun l => if l.MODE = 3 then lm_duration_hours l else 0).sum

/-- Daily meeting bucket (mode 4). -/
def line_row_meeting_hours (g : List MachineLog) : ℚ :=
  (g.map fun l => if l.MODE = 4 then lm_duration_hours l else 0).sum

/-- Daily maintenance bucket (mode 5). -/
def line_row_maintenance_hours (g : List MachineLog) : ℚ :=
  (g.map fun l => if l.MODE = 5 then lm_duration_hours l else 0).sum

/-- Daily idle bucket, summed directly from mode 2 (direct-idle policy). -/
def line_row_idle_hours (g : List MachineLog) : ℚ :=
  (g.map fun l => if l.MODE = 2 then lm_duration_hours l else 0).sum

/-- `daily_total_hours = productive_time + non_productive_time`
(`views.py:599-601`). -/
def line_row_daily_total_hours (g : List MachineLog) : ℚ :=
  line_row_sewing_hours g +
    (line_row_no_feeding_hours g + line_row_meeting_hours g +
      line_row_maintenance_hours g + line_row_idle_hours g)

/-- Daily `productive_time_percentage` (`views.py:607`). -/
def line_row_pt_percentage (g : List MachineLog) : ℚ :=
  if 0 < line_row_daily_total_hours g then
    line_row_sewing_hours g / line_row_daily_total_hours g * 100
  else 0

/-- Daily `non_productive_time_percentage` (`views.py:608`). -/
def line_row_npt_percentage (g : List MachineLog) : ℚ :=
  if 0 < line_row_daily_total_hours g then
    (line_row_no_feeding_hours g + line_row_meeting_hours g +
      line_row_maintenance_hours g + line_row_idle_hours g) /
      line_row_daily_total_hours g * 100
  else 0

/-- Daily `sewing_speed` (`views.py:569-573`): same `Avg(Case(..., default=0))`
shape as the operator table. -/
def line_row_sewing_speed (g : List MachineLog) : ℚ :=
  if 0 < g.length then (g.map reserve_case_value).sum / (g.length : ℚ) else 0

/-- `total_sewing_hours`, accumulated over the daily rows (`views.py:627`). -/
def line_total_sewing_hours (logs : List MachineLog) : ℚ :=
  ((daily_dates logs).map fun d => line_row_sewing_hours (day_group logs d)).sum

/-- `total_no_feeding_hours` (`views.py:628`). -/
def line_total_no_feeding_hours (logs : List MachineLog) : ℚ :=
  ((daily_dates logs).map fun d => line_row_no_feeding_hours (day_group logs d)).sum

/-- `total_meeting_hours` (`views.py:629`). -/
def line_total_meeting_hours (logs : List MachineLog) : ℚ :=
  ((daily_dates logs).map fun d => line_row_meeting_hours (day_group logs d)).sum

/-- `total_maintenance_hours` (`views.py:630`). -/
def line_total_maintenance_hours (logs : List MachineLog) : ℚ :=
  ((daily_dates logs).map fun d => line_row_maintenance_hours (day_group logs d)).sum

/-- `total_idle_hours` of the line family (`views.py:631`). -/
def line_total_idle_hours (logs : List MachineLog) : ℚ :=
  ((daily_dates logs).map fun d => line_row_idle_hours (day_group logs d)).sum

/-- `total_hours`, the accumulated daily totals (`views.py:604`). -/
def line_total_hours (logs : List MachineLog) : ℚ :=
  ((daily_dates logs).map fun d => line_row_daily_total_hours (day_group logs d)).sum

/-- `total_SKIP_COUNT`, accumulated from the per-day `Sum('SKIP_COUNT')` over
logs of every mode (`views.py:574`, `views.py:633`). -/
def line_total_SKIP_COUNT (logs : List MachineLog) : ℚ :=
  ((daily_dates logs).map fun d => ((day_group logs d).map (·.SKIP_COUNT)).sum).sum

/-- `total_OPERATION_COUNT`, accumulated per day (`views.py:632`). -/
def line_total_OPERATION_COUNT (logs : List MachineLog) : ℤ :=
  ((daily_dates logs).map fun d => ((day_group logs d).map (·.OPERATION_COUNT)).sum).sum

/-- `total_productive_time = total_sewing_hours` (`views.py:636`). -/
def line_total_productive_time (logs : List MachineLog) : ℚ :=
  line_total_sewing_hours logs

/-- `total_non_productive_time` (`views.py:637-642`). -/
def line_total_non_productive_time (logs : List MachineLog) : ℚ :=
  line_total_no_feeding_hours logs + line_total_meeting_hours logs +
    line_total_maintenance_hours logs + line_total_idle_hours logs

/-- `total_productive_percentage` (`views.py:645`). -/
def line_total_productive_percentage (logs : List MachineLog) : ℚ :=
  if 0 < line_total_hours logs then
    line_total_productive_time logs / line_total_hours logs * 100
  else 0

/-- `total_non_productive_percentage` (`views.py:646`). -/
def line_total_non_productive_percentage (logs : List MachineLog) : ℚ :=
  if 0 < line_total_hours logs then
    line_total_non_productive_time logs / line_total_hours logs * 100
  else 0

/-- `utilization_percentage = total_hours / total_ideal_hours * 100`
(`views.py:647`). -/
def utilization_percentage (logs : List MachineLog) : ℚ :=
  if 0 < total_ideal_hours logs then
    line_total_hours logs / total_ideal_hours logs * 100
  else 0

/-- `average_sewing_speed` of the line summary (`views.py:650-653`). -/
def line_average_sewing_speed (logs : List MachineLog) : ℚ :=
  if 0 < (logs.filter reserve_positive).length then
    ((logs.filter reserve_positive).map fun l => (reserve_int l : ℚ)).sum /
      ((logs.filter reserve_positive).length : ℚ)
  else 0

/-- `SKIP_COUNT_instances = logs.filter(MODE=1).count()` (`views.py:656-657`). -/
def line_SKIP_COUNT_instances (logs : List MachineLog) : ℕ :=
  (logs.filter fun l => l.MODE = 1).length

/-- `average_SKIP_COUNT` (`views.py:658`): all-mode skip total over the count
of production-mode logs. -/
def line_average_SKIP_COUNT (logs : List MachineLog) : ℚ :=
  if 0 < line_SKIP_COUNT_instances logs then
    line_total_SKIP_COUNT logs / (line_SKIP_COUNT_instances logs : ℚ)
  else 0

/-- `SKIP_COUNT_percentage` of the line summary (`views.py:659-660`): the
numerator is `total_SKIP_COUNT`, the all-mode skip total. -/
def line_SKIP_COUNT_percentage (logs : List MachineLog) : ℚ :=
  if 0 < line_total_productive_time logs then
    line_total_SKIP_COUNT logs / 3600 / line_total_productive_time logs * 100
  else 0

/-- The per-line report dictionary (`views.py:662-688`), fields rounded at
the presentation boundary exactly as in the source. -/
structure LineReport where
  totalIdealHours : ℚ
  utilizationPercentage : ℚ
  totalWorkingDays : ℕ
  averageMachines : ℚ
  totalHours : ℚ
  ptHours : ℚ
  ptPercentage : ℚ
  nptHours : ℚ
  nptPercentage : ℚ
  totalStitchCount : ℤ
  averageSewingSpeed : ℚ
  totalNeedleRuntime : ℚ
  needleRuntimePercentage : ℚ

/-- `process_line_data` (`views.py:521-688`) on the already-filtered logs of
one line. -/
def process_line_data (logs : List MachineLog) : LineReport :=
  { totalIdealHours := pyRound2 (total_ideal_hours logs)
  , utilizationPercentage := pyRound2 (utilization_percentage logs)
  , totalWorkingDays := line_total_working_days logs
  , averageMachines := pyRound2 (average_machines logs)
  , totalHours := pyRound2 (line_total_hours logs)
  , ptHours := pyRound2 (line_total_productive_time logs)
  , ptPercentage := pyRound2 (line_total_productive_percentage logs)
  , nptHours := pyRound2 (line_total_non_productive_time logs)
  , nptPercentage := pyRound2 (line_total_non_productive_percentage logs)
  , totalStitchCount := line_total_OPERATION_COUNT logs
  , averageSewingSpeed := pyRound2 (line_average_sewing_speed logs)
  , totalNeedleRuntime := pyRound2 (line_average_SKIP_COUNT logs)
  , needleRuntimePercentage := pyRound2 (line_SKIP_COUNT_percentage logs) }

/-! ### The "all lines" roll-up (`line_reports`, `views.py:758-832`) -/

/-- `logs.order_by('LINE_NUMBER').values_list('LINE_NUMBER').distinct()`;
only the set of keys matters for the accumulated summary. -/
def line_numbers (logs : List MachineLog) : List ℤ :=
  (logs.map (·.LINE_NUMBER)).dedup

/-- One `process_line_data` report per distinct line (`views.py:780-785`). -/
def all_line_reports (logs : List MachineLog) : List LineReport :=
  (line_numbers logs).map fun n => process_line_data (logs.filter fun l => l.LINE_NUMBER = n)

/-- The combined `summary` block of the "all lines" response
(`views.py:764-831`). -/
structure LinesSummary where
  totalLines : ℕ
  totalIdealHours : ℚ
  utilizationPercentage : ℚ
  averageMachines : ℚ
  totalHours : ℚ
  ptHours : ℚ
  ptPercentage : ℚ
  nptHours : ℚ
  nptPercentage : ℚ
  totalStitchCount : ℤ
  averageSewingSpeed : ℚ
  totalNeedleRuntime : ℚ
  needleRuntimePercentage : ℚ

/-- The accumulation loop of `line_reports` for the "all" case: sums of the
rounded per-line fields, weighted speed accumulators `speed_sum` and
`speed_count`, simple-mean machines average, and the final summary dict with
its conditional divisions (`views.py:776-831`). -/
def lines_summary (logs : List MachineLog) : LinesSummary :=
  let rs := all_line_reports logs
  let idealSum := (rs.map (·.totalIdealHours)).sum
  let hoursSum := (rs.map (·.totalHours)).sum
  let ptSum := (rs.map (·.ptHours)).sum
  let nptSum := (rs.map (·.nptHours)).sum
  let runtimeSum := (rs.map (·.totalNeedleRuntime)).sum
  let machinesSum := (rs.map (·.averageMachines)).sum
  let speed_sum := (rs.map fun r => r.averageSewingSpeed * r.totalHours).sum
  let speed_count := (rs.map (·.totalHours)).sum
  { totalLines := rs.length
  , totalIdealHours := pyRound2 idealSum
  , utilizationPercentage := pyRound2 (if 0 < idealSum then hoursSum / idealSum * 100 else 0)
  , averageMachines := pyRound2 (if 0 < rs.length then machinesSum / (rs.length : ℚ) else machinesSum)
  , totalHours := pyRound2 hoursSum
  , ptHours := pyRound2 ptSum
  , ptPercentage := pyRound2 (if 0 < hoursSum then ptSum / hoursSum * 100 else 0)
  , nptHours := pyRound2 nptSum
  , nptPercentage := pyRound2 (if 0 < hoursSum then nptSum / hoursSum * 100 else 0)
  , totalStitchCount := (rs.map (·.totalStitchCount)).sum
  , averageSewingSpeed := pyRound2 (if 0 < speed_count then speed_sum / speed_count else 0)
  , totalNeedleRuntime := pyRound2 runtimeSum
  , needleRuntimePercentage := pyRound2 (if 0 < ptSum then runtimeSum / ptSum * 100 else 0) }

/-! ### Specification-side comparator

The spec states the speed average as the mean over logs whose coerced
reserve value is a positive integer, excluding all others from numerator and
denominator alike.  This definition follows those words, for comparison with
the source-derived averages. -/

/-- The spec's speed average: mean of the coerced reserve samples over the
logs where the sample is a positive integer; such logs alone populate
numerator and denominator. -/
def spec_positive_reserve_mean (logs : List MachineLog) : ℚ :=
  if 0 < (logs.filter reserve_positive).length then
    ((logs.filter reserve_positive).map fun l => (reserve_int l : ℚ)).sum /
      ((logs.filter reserve_positive).length : ℚ)
  else 0

/-! ### Concrete log records used by the closed-form theorems -/

/-- A line-family log running 12:30:00 to 11:56:40 (times of day), i.e. a
span whose end clock time precedes its start. -/
def c1log : MachineLog :=
  { MACHINE_ID := 1, LINE_NUMBER := 1, OPERATOR_ID := "A", DATE := 0,
    START_TIME := ⟨12, 30, 0⟩, END_TIME := ⟨11, 56, 40⟩, MODE := 1,
    OPERATION_COUNT := 0, SKIP_COUNT := 0, RESERVE := some 100 }

/-- An in-window production log, 09:00-10:00. -/
def c1wlog : MachineLog :=
  { MACHINE_ID := 1, LINE_NUMBER := 1, OPERATOR_ID := "A", DATE := 0,
    START_TIME := ⟨9, 0, 0⟩, END_TIME := ⟨10, 0, 0⟩, MODE := 1,
    OPERATION_COUNT := 0, SKIP_COUNT := 0, RESERVE := some 100 }

/-- A log lying exactly on the 10:30-10:40 break. -/
def c2log : MachineLog :=
  { MACHINE_ID := 1, LINE_NUMBER := 1, OPERATOR_ID := "A", DATE := 0,
    START_TIME := ⟨10, 30, 0⟩, END_TIME := ⟨10, 40, 0⟩, MODE := 1,
    OPERATION_COUNT := 0, SKIP_COUNT := 0, RESERVE := some 100 }

/-- A production log 08:00-20:00: clamps to the full 11-hour operator window,
exceeding the 10-hour nominal baseline of a single working day. -/
def c3log : MachineLog :=
  { MACHINE_ID := 1, LINE_NUMBER := 1, OPERATOR_ID := "A", DATE := 0,
    START_TIME := ⟨8, 0, 0⟩, END_TIME := ⟨20, 0, 0⟩, MODE := 1,
    OPERATION_COUNT := 0, SKIP_COUNT := 0, RESERVE := some 100 }

/-- A log with a positive reserve sample (100), 11:00-12:00. -/
def c4log1 : MachineLog :=
  { MACHINE_ID := 1, LINE_NUMBER := 1, OPERATOR_ID := "A", DATE := 0,
    START_TIME := ⟨11, 0, 0⟩, END_TIME := ⟨12, 0, 0⟩, MODE := 1,
    OPERATION_COUNT := 0, SKIP_COUNT := 0, RESERVE := some 100 }

/-- A log with a zero reserve sample, 14:30-15:00. -/
def c4log2 : MachineLog :=
  { MACHINE_ID := 1, LINE_NUMBER := 1, OPERATOR_ID := "A", DATE := 0,
    START_TIME := ⟨14, 30, 0⟩, END_TIME := ⟨15, 0, 0⟩, MODE := 1,
    OPERATION_COUNT := 0, SKIP_COUNT := 0, RESERVE := some 0 }

/-- A one-hour production log on line 1 with speed sample 100. -/
def c5log : MachineLog :=
  { MACHINE_ID := 1, LINE_NUMBER := 1, OPERATOR_ID := "A", DATE := 0,
    START_TIME := ⟨9, 0, 0⟩, END_TIME := ⟨10, 0, 0⟩, MODE := 1,
    OPERATION_COUNT := 7, SKIP_COUNT := 0, RESERVE := some 100 }

/-- A production-mode log with skip count 3600 (one hour), 09:00-10:00. -/
def c6log1 : MachineLog :=
  { MACHINE_ID := 1, LINE_NUMBER := 1, OPERATOR_ID := "A", DATE := 0,
    START_TIME := ⟨9, 0, 0⟩, END_TIME := ⟨10, 0, 0⟩, MODE := 1,
    OPERATION_COUNT := 0, SKIP_COUNT := 3600, RESERVE := some 100 }

/-- An idle-mode (2) log with skip count 3600, 11:00-12:00. -/
def c6log2 : MachineLog :=
  { MACHINE_ID := 1, LINE_NUMBER := 1, OPERATOR_ID := "A", DATE := 0,
    START_TIME := ⟨11, 0, 0⟩, END_TIME := ⟨12, 0, 0⟩, MODE := 2,
    OPERATION_COUNT := 0, SKIP_COUNT := 3600, RESERVE := some 100 }

/-- An unassigned-operator (id "0") log in production mode (not mode 2). -/
def c7log : MachineLog :=
  { MACHINE_ID := 1, LINE_NUMBER := 1, OPERATOR_ID := "0", DATE := 0,
    START_TIME := ⟨9, 0, 0⟩, END_TIME := ⟨10, 0, 0⟩, MODE := 1,
    OPERATION_COUNT := 0, SKIP_COUNT := 0, RESERVE := some 100 }

/-- A registered-operator production log, for the retained side of the
operator-filter characterization. -/
def c7log2 : MachineLog :=
  { MACHINE_ID := 1, LINE_NUMBER := 1, OPERATOR_ID := "A", DATE := 0,
    START_TIME := ⟨9, 0, 0⟩, END_TIME := ⟨10, 0, 0⟩, MODE := 1,
    OPERATION_COUNT := 0, SKIP_COUNT := 0, RESERVE := some 100 }

/-- A log starting 08:00, before the 08:25 line-family window start, with
most of its span inside the window. -/
def c9log : MachineLog :=
  { MACHINE_ID := 1, LINE_NUMBER := 1, OPERATOR_ID := "A", DATE := 0,
    START_TIME := ⟨8, 0, 0⟩, END_TIME := ⟨10, 0, 0⟩, MODE := 1,
    OPERATION_COUNT := 0, SKIP_COUNT := 0, RESERVE := some 100 }

/-- A full-window production log 08:30-19:30: 11 clamped hours on one day. -/
def c10log : MachineLog :=
  { MACHINE_ID := 1, LINE_NUMBER := 1, OPERATOR_ID := "A", DATE := 0,
    START_TIME := ⟨8, 30, 0⟩, END_TIME := ⟨19, 30, 0⟩, MODE := 1,
    OPERATION_COUNT := 0, SKIP_COUNT := 0, RESERVE := some 100 }

/-! ### Helper lemmas -/

theorem roundHalfEven_intCast (n : ℤ) : roundHalfEven (n : ℚ) = n := by
  simp [roundHalfEven]

theorem roundHalfEven_nonneg {y : ℚ} (hy : 0 ≤ y) : 0 ≤ roundHalfEven y := by
  have h0 : (0 : ℤ) ≤ ⌊y⌋ := Int.floor_nonneg.mpr hy
  unfold roundHalfEven
  split
  · exact h0
  · split
    · omega
    · split <;> omega

theorem pyRound2_nonneg {x : ℚ} (hx : 0 ≤ x) : 0 ≤ pyRound2 x := by
  unfold pyRound2
  have : (0 : ℤ) ≤ roundHalfEven (x * 100) := roundHalfEven_nonneg (by positivity)
  positivity

theorem pyRound2_intCast (n : ℤ) : pyRound2 (n : ℚ) = n := by
  have : ((n : ℚ)) * 100 = ((n * 100 : ℤ) : ℚ) := by push_cast; ring
  rw [pyRound2, this, roundHalfEven_intCast]
  push_cast
  ring

theorem roundHalfEven_floor_eq {y : ℚ} (h : y - ⌊y⌋ < 1 / 2) :
    roundHalfEven y = ⌊y⌋ := by
  unfold roundHalfEven
  rw [if_pos h]

theorem roundHalfEven_up_eq {y : ℚ} (h : 1 / 2 < y - ⌊y⌋) :
    roundHalfEven y = ⌊y⌋ + 1 := by
  unfold roundHalfEven
  rw [if_neg (by linarith), if_pos h]

theorem roundHalfEven_tie_eq {y : ℚ} (h : y - ⌊y⌋ = 1 / 2) :
    roundHalfEven y = if ⌊y⌋ % 2 = 0 then ⌊y⌋ else ⌊y⌋ + 1 := by
  unfold roundHalfEven
  rw [if_neg (by rw [h]; norm_num), if_neg (by rw [h]; norm_num)]

/-- Round-half-even commutes with subtraction from an even integer. -/
theorem roundHalfEven_intCast_sub {n : ℤ} (hn : Even n) (y : ℚ) :
    roundHalfEven ((n : ℚ) - y) = n - roundHalfEven y := by
  have hn2 : n % 2 = 0 := Int.even_iff.mp hn
  have hf0 : (0 : ℚ) ≤ y - ⌊y⌋ := by
    have := Int.floor_le y
    linarith
  have hf1 : y - ⌊y⌋ < 1 := by
    have := Int.lt_floor_add_one y
    linarith
  rcases eq_or_lt_of_le hf0 with h0 | hpos
  · obtain ⟨m, hm⟩ : ∃ m : ℤ, y = (m : ℚ) := ⟨⌊y⌋, by linarith⟩
    subst hm
    rw [show ((n : ℚ) - (m : ℚ)) = ((n - m : ℤ) : ℚ) by push_cast; ring,
      roundHalfEven_intCast, roundHalfEven_intCast]
  · have hfloor : ⌊(n : ℚ) - y⌋ = n - ⌊y⌋ - 1 := by
      rw [Int.floor_eq_iff]
      push_cast
      constructor <;> linarith
    have hfr : ((n : ℚ) - y) - ⌊(n : ℚ) - y⌋ = 1 - (y - ⌊y⌋) := by
      rw [hfloor]
      push_cast
      ring
    rcases lt_trichotomy (y - ⌊y⌋) (1 / 2) with hc | hc | hc
    · rw [roundHalfEven_up_eq (by rw [hfr]; linarith), hfloor,
        roundHalfEven_floor_eq hc]
      ring
    · rw [roundHalfEven_tie_eq (by rw [hfr, hc]; norm_num), hfloor,
        roundHalfEven_tie_eq hc]
      split_ifs <;> omega
    · rw [roundHalfEven_floor_eq (by rw [hfr]; linarith), hfloor,
        roundHalfEven_up_eq hc]
      ring

/-- `round(100 - x, 2) = 100 - round(x, 2)` under round-half-even, the identity
behind the daily table's complementary percentage columns. -/
theorem pyRound2_hundred_sub (x : ℚ) : pyRound2 (100 - x) = 100 - pyRound2 x := by
  unfold pyRound2
  rw [show (100 - x) * 100 = ((10000 : ℤ) : ℚ) - x * 100 by push_cast; ring,
    roundHalfEven_intCast_sub (by decide)]
  push_cast
  ring


theorem sum_map_add {α : Type} (f g : α → ℚ) (l : List α) :
    (l.map fun x => f x + g x).sum = (l.map f).sum + (l.map g).sum := by
  induction l with
  | nil => simp
  | cons x xs ih => simp [ih]; ring

theorem sum_map_zero {α : Type} (l : List α) :
    (l.map fun _ => (0 : ℚ)).sum = 0 := by
  induction l with
  | nil => simp
  | cons x xs ih => simp [ih]

/-- A sum of `if p x then f x else 0` over a list is the sum of `f` over the
sublist where `p` holds (the `Sum(Case(When(...), default=0))` shape). -/
theorem sum_ite_eq_sum_filter {α : Type} (p : α → Bool) (f : α → ℚ) (l : List α) :
    (l.map fun x => if p x then f x else 0).sum = ((l.filter p).map f).sum := by
  induction l with
  | nil => simp
  | cons x xs ih =>
    by_cases h : p x <;> simp [List.filter_cons, h, ih]

theorem sum_map_ite_eq {β : Type} [DecidableEq β] (D : List β) (hD : D.Nodup)
    (d₀ : β) (hd₀ : d₀ ∈ D) (c : ℚ) :
    (D.map fun d => if d₀ = d then c else 0).sum = c := by
  induction D with
  | nil => cases hd₀
  | cons d ds ih =>
    rcases List.mem_cons.mp hd₀ with h | h
    · subst h
      have : (ds.map fun d => if d₀ = d then c else 0).sum = 0 := by
        have : ∀ d ∈ ds, (if d₀ = d then c else 0) = 0 := by
          intro d hd
          rw [if_neg]
          intro hcontra
          exact (List.nodup_cons.mp hD).1 (hcontra ▸ hd)
        calc (ds.map fun d => if d₀ = d then c else 0).sum
            = (ds.map fun _ => (0 : ℚ)).sum := by
              congr 1
              exact List.map_congr_left this
          _ = 0 := sum_map_zero ds
      simp [this]
    · have hne : d₀ ≠ d := by
        intro hcontra
        exact (List.nodup_cons.mp hD).1 (hcontra ▸ h)
      simp only [List.map_cons, List.sum_cons, if_neg hne, zero_add]
      exact ih (List.nodup_cons.mp hD).2 h

/-- Summing a per-group filtered sum over a duplicate-free covering key list
gives the flat sum. -/
theorem sum_groups_eq_sum {α β : Type} [DecidableEq β] (key : α → β) (f : α → ℚ)
    (l : List α) (D : List β) (hD : D.Nodup) (hcov : ∀ x ∈ l, key x ∈ D) :
    (D.map fun d => ((l.filter fun x => key x = d).map f).sum).sum
      = (l.map f).sum := by
  induction l with
  | nil => simp [sum_map_zero]
  | cons x xs ih =>
    have hsplit : ∀ d : β,
        (((x :: xs).filter fun a => key a = d).map f).sum
          = (if key x = d then f x else 0)
            + ((xs.filter fun a => key a = d).map f).sum := by
      intro d
      by_cases h : key x = d <;> simp [List.filter_cons, h]
    calc (D.map fun d => (((x :: xs).filter fun a => key a = d).map f).sum).sum
        = (D.map fun d => (if key x = d then f x else 0)
            + ((xs.filter fun a => key a = d).map f).sum).sum := by
          congr 1
          exact List.map_congr_left fun d _ => hsplit d
      _ = (D.map fun d => if key x = d then f x else 0).sum
            + (D.map fun d => ((xs.filter fun a => key a = d).map f).sum).sum :=
          sum_map_add _ _ D
      _ = f x + (xs.map f).sum := by
          rw [sum_map_ite_eq D hD (key x) (hcov x (List.mem_cons_self x xs)) (f x),
            ih fun a ha => hcov a (List.mem_cons_of_mem x ha)]
      _ = ((x :: xs).map f).sum := by simp

theorem pyRound2_zero : pyRound2 0 = 0 := by
  norm_num [pyRound2, roundHalfEven]

/-- Variant of `sum_ite_eq_sum_filter` for a decidable propositional test. -/
theorem sum_ite_prop_eq_sum_filter {α : Type} (p : α → Prop) [DecidablePred p]
    (f : α → ℚ) (l : List α) :
    (l.map fun x => if p x then f x else 0).sum
      = ((l.filter fun x => decide (p x)).map f).sum := by
  induction l with
  | nil => simp
  | cons x xs ih =>
    by_cases h : p x <;> simp [List.filter_cons, h, ih]

theorem reserve_case_value_eq (l : MachineLog) :
    reserve_case_value l = if reserve_positive l then (reserve_int l : ℚ) else 0 := by
  unfold reserve_case_value reserve_positive reserve_int reserve_numeric
  cases l.RESERVE with
  | none => simp
  | some v => by_cases h : 0 < v <;> simp [h]

theorem adjusted_start_ge (l : MachineLog) : 8.5 * 3600 ≤ adjusted_start_seconds l := by
  unfold adjusted_start_seconds
  split_ifs with h1 h2
  · exact le_rfl
  · norm_num
  · linarith

theorem adjusted_start_le (l : MachineLog) : adjusted_start_seconds l ≤ 19.5 * 3600 := by
  unfold adjusted_start_seconds
  split_ifs with h1 h2
  · norm_num
  · exact le_rfl
  · linarith

theorem adjusted_end_ge (l : MachineLog) : 8.5 * 3600 ≤ adjusted_end_seconds l := by
  unfold adjusted_end_seconds
  split_ifs with h1 h2
  · exact le_rfl
  · norm_num
  · linarith

theorem adjusted_end_le (l : MachineLog) : adjusted_end_seconds l ≤ 19.5 * 3600 := by
  unfold adjusted_end_seconds
  split_ifs with h1 h2
  · norm_num
  · exact le_rfl
  · linarith

/-- The clamped operator-family duration never exceeds the 11-hour span of the
08:30-19:30 window. -/
theorem op_duration_hours_le_eleven (l : MachineLog) : op_duration_hours l ≤ 11 := by
  unfold op_duration_hours
  split_ifs
  · norm_num
  · rw [div_le_iff₀ (by norm_num : (0 : ℚ) < 3600)]
    have h1 := adjusted_end_le l
    have h2 := adjusted_start_ge l
    linarith

/-- The per-day accumulated skip totals of `process_line_data` add up to the
flat skip sum over every retained log of any mode. -/
theorem line_total_SKIP_COUNT_eq (logs : List MachineLog) :
    line_total_SKIP_COUNT logs = (logs.map (·.SKIP_COUNT)).sum := by
  unfold line_total_SKIP_COUNT daily_dates day_group
  exact sum_groups_eq_sum (·.DATE) (·.SKIP_COUNT) logs _ (List.nodup_dedup _)
    fun x hx => List.mem_dedup.mpr (List.mem_map_of_mem _ hx)

/-- The per-day accumulated sewing totals of `process_line_data` equal the
flat duration sum over the production-mode logs. -/
theorem line_total_sewing_hours_eq (logs : List MachineLog) :
    line_total_sewing_hours logs
      = ((logs.filter fun l => l.MODE = 1).map lm_duration_hours).sum := by
  have h1 := sum_groups_eq_sum (·.DATE)
    (fun l => if l.MODE = 1 then lm_duration_hours l else 0) logs
    ((logs.map (·.DATE)).dedup) (List.nodup_dedup _)
    fun x hx => List.mem_dedup.mpr (List.mem_map_of_mem _ hx)
  unfold line_total_sewing_hours daily_dates day_group line_row_sewing_hours
  rw [h1]
  exact sum_ite_prop_eq_sum_filter _ _ _

/-! ### Claim theorems -/

theorem mem_op_break_filter_iff (logs : List MachineLog) (l : MachineLog) :
    l ∈ op_break_filter logs ↔ l ∈ logs ∧ op_in_break l = false := by
  simp [op_break_filter, List.mem_filter]

theorem op_in_break_false_iff (l : MachineLog) :
    op_in_break l = false ↔
      ¬((start_seconds l ≥ 10.5 * 3600 ∧ end_seconds l ≤ 10.6667 * 3600) ∨
        (start_seconds l ≥ 13.3333 * 3600 ∧ end_seconds l ≤ 14 * 3600) ∨
        (start_seconds l ≥ 16.3333 * 3600 ∧ end_seconds l ≤ 16.5 * 3600)) := by
  rw [Bool.eq_false_iff]
  simp only [op_in_break, ne_eq, Bool.or_eq_true, Bool.and_eq_true, decide_eq_true_eq]
  rw [or_assoc]

theorem mem_lm_break_filter_iff (logs : List MachineLog) (l : MachineLog) :
    l ∈ lm_break_filter logs ↔ l ∈ logs ∧ lm_in_break l = false := by
  simp [lm_break_filter, List.mem_filter]

theorem lm_in_break_false_iff (l : MachineLog) :
    lm_in_break l = false ↔
      ¬((start_seconds l ≥ 37800 ∧ end_seconds l ≤ 38400) ∨
        (start_seconds l ≥ 48000 ∧ end_seconds l ≤ 50400) ∨
        (start_seconds l ≥ 58800 ∧ end_seconds l ≤ 59400)) := by
  rw [Bool.eq_false_iff]
  simp only [lm_in_break, ne_eq, Bool.or_eq_true, Bool.and_eq_true, decide_eq_true_eq]
  rw [or_assoc]

/-- C2: in both report families a log is dropped by the break stage exactly
when its unclamped span lies entirely inside one of the three configured
breaks (start at or after the break start and end at or before the break
end); a fully in-break log never reaches aggregation, and a straddling log
is retained by that stage with its record, hence its duration, untouched. -/
theorem c2_break_exclusion_iff (logs : List MachineLog) (l : MachineLog) (vo : List String) :
    (l ∈ op_break_filter logs ↔ l ∈ logs ∧
      ¬((start_seconds l ≥ 10.5 * 3600 ∧ end_seconds l ≤ 10.6667 * 3600) ∨
        (start_seconds l ≥ 13.3333 * 3600 ∧ end_seconds l ≤ 14 * 3600) ∨
        (start_seconds l ≥ 16.3333 * 3600 ∧ end_seconds l ≤ 16.5 * 3600))) ∧
    (l ∈ lm_break_filter logs ↔ l ∈ logs ∧
      ¬((start_seconds l ≥ 37800 ∧ end_seconds l ≤ 38400) ∨
        (start_seconds l ≥ 48000 ∧ end_seconds l ≤ 50400) ∨
        (start_seconds l ≥ 58800 ∧ end_seconds l ≤ 59400))) ∧
    ((start_seconds l ≥ 10.5 * 3600 ∧ end_seconds l ≤ 10.6667 * 3600) →
      l ∉ op_filtered logs) ∧
    ((start_seconds l ≥ 37800 ∧ end_seconds l ≤ 38400) →
      l ∉ lm_filtered vo logs) := by
  refine ⟨?_, ?_, ?_, ?_⟩
  · rw [mem_op_break_filter_iff, op_in_break_false_iff]
  · rw [mem_lm_break_filter_iff, lm_in_break_false_iff]
  · intro h1 hmem
    have hmem' : l ∈ op_break_filter (op_duration_filter (op_exclude_id0_mode2 logs)) := hmem
    have hb := ((mem_op_break_filter_iff _ l).mp hmem').2
    exact (op_in_break_false_iff l).mp hb (Or.inl h1)
  · intro h1 hmem
    have hmem' : l ∈ lm_break_filter (lm_window_filter (lm_operator_filter vo logs)) := hmem
    have hb := ((mem_lm_break_filter_iff _ l).mp hmem').2
    exact (lm_in_break_false_iff l).mp hb (Or.inl h1)

/-- C2 witness: the log 10:30-10:40 lies exactly inside the first break of
both families and is excluded from both pipelines. -/
theorem c2_witness :
    (start_seconds c2log ≥ 10.5 * 3600 ∧ end_seconds c2log ≤ 10.6667 * 3600) ∧
    c2log ∉ op_filtered [c2log] ∧
    (start_seconds c2log ≥ 37800 ∧ end_seconds c2log ≤ 38400) ∧
    c2log ∉ lm_filtered ["A"] [c2log] := by
  have h1 : start_seconds c2log ≥ 10.5 * 3600 ∧ end_seconds c2log ≤ 10.6667 * 3600 := by
    norm_num [start_seconds, end_seconds, time_seconds, c2log]
  have h2 : start_seconds c2log ≥ 37800 ∧ end_seconds c2log ≤ 38400 := by
    norm_num [start_seconds, end_seconds, time_seconds, c2log]
  exact ⟨h1, (c2_break_exclusion_iff [c2log] c2log ["A"]).2.2.1 h1, h2,
    (c2_break_exclusion_iff [c2log] c2log ["A"]).2.2.2 h2⟩

/-- C3 (amended): in `operator_reports_by_name` the reported idle hours of
the summary and of each daily row equal the rounded value of
`max(nominal available hours - sum of the four named buckets, 0)`, hence are
never negative; `operator_reports_all`, by contrast, reports no idle field:
its non-production hours are the unfloored subtraction
`available - production`. -/
theorem c3_derived_idle (logs : List MachineLog) (g : List MachineLog) :
    reported_totalIdleHours logs = pyRound2 (max (op_total_available_hours logs -
      (total_production_hours logs + total_no_feeding_hours logs +
        total_meeting_hours logs + total_maintenance_hours logs)) 0) ∧
    0 ≤ reported_totalIdleHours logs ∧
    (op_formatted_row g).idleHours = pyRound2 (max (10 - (op_row_sewing_hours g +
      op_row_meeting_hours g + op_row_no_feeding_hours g + op_row_maintenance_hours g)) 0) ∧
    0 ≤ (op_formatted_row g).idleHours ∧
    op_all_total_non_production_hours logs
      = op_total_available_hours logs - total_production_hours logs := by
    refine ⟨rfl, pyRound2_nonneg (le_max_right _ _), rfl,
      pyRound2_nonneg (le_max_right _ _), rfl⟩

/-- C3 counterexample: one production log 08:00-20:00 clamps to 11 hours on a
single 10-hour working day, and `operator_reports_all` reports non-production
hours -1: the derived subtraction of the operator-summary report is not
floored at zero. -/
theorem c3_counterexample :
    op_all_total_non_production_hours [c3log] = -1 ∧
    op_all_reported_totalNonProductionHours [c3log] < 0 := by
  have h : op_all_total_non_production_hours [c3log] = -1 := by
    norm_num [op_all_total_non_production_hours, op_total_available_hours,
      op_total_working_days, distinct_dates, total_production_hours, mode_duration_sum,
      op_filtered, op_break_filter, op_duration_filter, op_exclude_id0_mode2,
      op_in_break, List.filter, op_duration_hours, adjusted_start_seconds,
      adjusted_end_seconds, start_seconds, end_seconds, time_seconds, c3log]
  refine ⟨h, ?_⟩
  rw [op_all_reported_totalNonProductionHours, h]
  norm_num [pyRound2, roundHalfEven]

/-- C7 (amended): the operator reports exclude exactly the logs with
operator id "0" and mode 2; the line/machine/global reports instead keep
exactly the logs whose operator id is registered in the operator directory,
so every unassigned-operator log is dropped there whenever "0" is not a
registered card number, regardless of mode. -/
theorem c7_operator_filters (logs : List MachineLog) (l : MachineLog) (vo : List String) :
    (l ∈ op_exclude_id0_mode2 logs ↔
      l ∈ logs ∧ ¬(l.OPERATOR_ID = "0" ∧ l.MODE = 2)) ∧
    (l ∈ lm_operator_filter vo logs ↔ l ∈ logs ∧ l.OPERATOR_ID ∈ vo) := by
  constructor
  · simp only [op_exclude_id0_mode2, List.mem_filter, Bool.not_eq_true',
      Bool.and_eq_false_iff, decide_eq_false_iff_not, not_and_or]
  · simp [lm_operator_filter, List.mem_filter]

/-- C7 counterexample: a production-mode log with operator id "0" does not
satisfy the (id = "0" and mode = 2) conjunction, yet the line-family
operator filter drops it when "0" is not in the directory. -/
theorem c7_counterexample :
    ¬(c7log.OPERATOR_ID = "0" ∧ c7log.MODE = 2) ∧
    c7log.OPERATOR_ID = "0" ∧
    c7log ∉ lm_operator_filter ["A"] [c7log] := by
  refine ⟨?_, rfl, ?_⟩
  · rintro ⟨-, h⟩
    simp [c7log] at h
  · intro h
    have := (List.mem_filter.mp h).2
    simp [c7log] at this

/-- C7 witness: a registered-operator log is retained by the line-family
operator filter, and any log not matching the (id="0" ∧ mode=2) conjunction
is retained by the operator-family exclusion. -/
theorem c7_witness :
    c7log2 ∈ op_exclude_id0_mode2 [c7log2] ∧
    c7log2 ∈ lm_operator_filter ["A"] [c7log2] := by
  constructor
  · exact (c7_operator_filters [c7log2] c7log2 ["A"]).1.mpr
      ⟨List.mem_singleton.mpr rfl, by rintro ⟨h, -⟩; simp [c7log2] at h⟩
  · exact (c7_operator_filters [c7log2] c7log2 ["A"]).2.mpr
      ⟨List.mem_singleton.mpr rfl, by simp [c7log2]⟩

/-- C8: every ratio of the operator summary, the line summary and the line
daily rows yields 0 when its denominator is zero: percentages against zero
available/total hours, utilization against zero ideal hours, needle-runtime
against zero productive hours, and averages over zero samples. -/
theorem c8_zero_denominators (logs : List MachineLog) (g : List MachineLog) :
    (op_total_available_hours logs = 0 →
      production_percentage logs = 0 ∧ npt_percentage logs = 0) ∧
    (total_production_hours logs = 0 → SKIP_COUNT_percentage logs = 0) ∧
    ((valid_speed_logs logs).length = 0 → average_sewing_speed logs = 0) ∧
    (SKIP_COUNT_instances logs = 0 → average_SKIP_COUNT logs = 0) ∧
    (line_total_hours logs = 0 → line_total_productive_percentage logs = 0 ∧
      line_total_non_productive_percentage logs = 0) ∧
    (total_ideal_hours logs = 0 → utilization_percentage logs = 0) ∧
    (line_total_productive_time logs = 0 → line_SKIP_COUNT_percentage logs = 0) ∧
    ((logs.filter reserve_positive).length = 0 → line_average_sewing_speed logs = 0) ∧
    (line_SKIP_COUNT_instances logs = 0 → line_average_SKIP_COUNT logs = 0) ∧
    (line_row_daily_total_hours g = 0 →
      line_row_pt_percentage g = 0 ∧ line_row_npt_percentage g = 0) ∧
    (g.length = 0 → op_row_sewing_speed g = 0 ∧ line_row_sewing_speed g = 0) := by
  refine ⟨fun h => ⟨?_, ?_⟩, fun h => ?_, fun h => ?_, fun h => ?_,
    fun h => ⟨?_, ?_⟩, fun h => ?_, fun h => ?_, fun h => ?_, fun h => ?_,
    fun h => ⟨?_, ?_⟩, fun h => ⟨?_, ?_⟩⟩
  · simp [production_percentage, h]
  · simp [npt_percentage, h]
  · simp [SKIP_COUNT_percentage, h]
  · simp [average_sewing_speed, h]
  · simp [average_SKIP_COUNT, h]
  · simp [line_total_productive_percentage, h]
  · simp [line_total_non_productive_percentage, h]
  · simp [utilization_percentage, h]
  · simp [line_SKIP_COUNT_percentage, h]
  · simp [line_average_sewing_speed, h]
  · simp [line_average_SKIP_COUNT, h]
  · simp [line_row_pt_percentage, h]
  · simp [line_row_npt_percentage, h]
  · simp [op_row_sewing_speed, h]
  · simp [line_row_sewing_speed, h]

/-- C8 witness: with no logs at all every denominator is zero and every
guarded ratio is 0. -/
theorem c8_witness :
    op_total_available_hours [] = 0 ∧ production_percentage [] = 0 ∧
    npt_percentage [] = 0 ∧ total_ideal_hours [] = 0 ∧
    utilization_percentage [] = 0 := by
  have h1 : op_total_available_hours [] = 0 := by
    norm_num [op_total_available_hours, op_total_working_days, distinct_dates,
      op_filtered, op_break_filter, op_duration_filter, op_exclude_id0_mode2,
      List.filter]
  have h2 : total_ideal_hours [] = 0 := by
    norm_num [total_ideal_hours, List.filter]
  obtain ⟨hp, hn⟩ := (c8_zero_denominators [] []).1 h1
  exact ⟨h1, hp, hn, h2, (c8_zero_denominators [] []).2.2.2.2.2.1 h2⟩

/-- C9: the line, machine and global selections drop every log starting
before 08:25 (30300 s) or ending after 19:35 (70500 s) outright - it never
reaches any bucket - and the duration used for a retained log is the raw
unclamped span `(end - start)/3600`. -/
theorem c9_window_exclusion (logs : List MachineLog) (l : MachineLog) (vo : List String) :
    (start_seconds l < 30300 ∨ 70500 < end_seconds l →
      l ∉ line_filtered vo logs ∧ l ∉ machine_filtered vo logs ∧
        l ∉ all_machines_filtered vo logs) ∧
    lm_duration_hours l = (end_seconds l - start_seconds l) / 3600 := by
  constructor
  · intro h
    have key : l ∉ lm_filtered vo logs := by
      intro hmem
      simp only [lm_filtered, lm_break_filter, lm_window_filter] at hmem
      have h2 := (List.mem_filter.mp (List.mem_filter.mp hmem).1).2
      simp only [Bool.and_eq_true, decide_eq_true_eq, ge_iff_le] at h2
      rcases h with h | h
      · linarith [h2.1]
      · linarith [h2.2]
    exact ⟨key, key, key⟩
  · rfl

/-- C9 witness: a log running 08:00-10:00 (mostly inside the window) is
excluded from all three selections. -/
theorem c9_witness :
    start_seconds c9log < 30300 ∧
    c9log ∉ line_filtered ["A"] [c9log] ∧
    c9log ∉ machine_filtered ["A"] [c9log] ∧
    c9log ∉ all_machines_filtered ["A"] [c9log] := by
  have h : start_seconds c9log < 30300 := by
    norm_num [start_seconds, time_seconds, c9log]
  obtain ⟨ha, hb, hc⟩ := (c9_window_exclusion [c9log] c9log ["A"]).1 (Or.inl h)
  exact ⟨h, ha, hb, hc⟩

/-- C10: every operator daily-table row reports the constant 10 as
'Total Hours', 'Productive Time in %' as `sewing/10*100`, 'NPT in %' as
exactly `100 -` the productive percentage, and 'Idle Hours' as the
zero-floored rounded idle, while a day whose four bucket hours sum beyond 10
has negative unfloored idle yet still reports 'Total Hours' 10. -/
theorem c10_daily_row_invariants (g : List MachineLog) :
    (op_formatted_row g).totalHours = 10 ∧
    (op_formatted_row g).ptPercentage = pyRound2 (op_row_sewing_hours g / 10 * 100) ∧
    (op_formatted_row g).nptPercentage = 100 - (op_formatted_row g).ptPercentage ∧
    (op_formatted_row g).idleHours = pyRound2 (max (op_row_idle_hours g) 0) ∧
    (10 < op_row_sewing_hours g + op_row_meeting_hours g + op_row_no_feeding_hours g +
        op_row_maintenance_hours g →
      op_row_idle_hours g < 0 ∧ (op_formatted_row g).totalHours = 10) := by
  have h10 : (op_formatted_row g).totalHours = 10 := by
    show pyRound2 10 = 10
    rw [show (10 : ℚ) = ((10 : ℤ) : ℚ) by norm_num, pyRound2_intCast]
  refine ⟨h10, rfl, ?_, rfl, fun h => ⟨?_, h10⟩⟩
  · show pyRound2 (op_row_npt_percentage g) = 100 - pyRound2 (op_row_productive_time_percentage g)
    rw [op_row_npt_percentage, op_row_productive_time_percentage]
    exact pyRound2_hundred_sub _
  · unfold op_row_idle_hours
    linarith

/-- C10 witness: a full-window 08:30-19:30 production log gives a day with 11
bucket hours, unfloored idle -1, and a reported 'Total Hours' of 10. -/
theorem c10_witness :
    10 < op_row_sewing_hours [c10log] + op_row_meeting_hours [c10log] +
      op_row_no_feeding_hours [c10log] + op_row_maintenance_hours [c10log] ∧
    op_row_idle_hours [c10log] < 0 ∧ (op_formatted_row [c10log]).totalHours = 10 := by
  have h : 10 < op_row_sewing_hours [c10log] + op_row_meeting_hours [c10log] +
      op_row_no_feeding_hours [c10log] + op_row_maintenance_hours [c10log] := by
    norm_num [op_row_sewing_hours, op_row_meeting_hours, op_row_no_feeding_hours,
      op_row_maintenance_hours, op_duration_hours, adjusted_start_seconds,
      adjusted_end_seconds, start_seconds, end_seconds, time_seconds, c10log]
  exact ⟨h, (c10_daily_row_invariants [c10log]).2.2.2.2 h⟩

/-- C4 (amended): the scalar summary speed averages (operator and line) are
the mean over positive-coerced reserve samples only, as the claim states;
but each daily-table `sewing_speed` divides the sum of the positive samples
by the count of ALL logs in the group, so non-positive (and NULL) samples
enter the denominator as zero-valued samples. -/
theorem c4_sewing_speed (logs : List MachineLog) (g : List MachineLog) :
    reported_averageSewingSpeed logs
      = pyRound2 (spec_positive_reserve_mean (op_filtered logs)) ∧
    line_average_sewing_speed logs = spec_positive_reserve_mean logs ∧
    op_row_sewing_speed g
      = (((g.filter reserve_positive).map fun l => (reserve_int l : ℚ)).sum) / (g.length : ℚ) ∧
    line_row_sewing_speed g
      = (((g.filter reserve_positive).map fun l => (reserve_int l : ℚ)).sum) / (g.length : ℚ) := by
  have hsum : (g.map reserve_case_value).sum
      = ((g.filter reserve_positive).map fun l => (reserve_int l : ℚ)).sum := by
    rw [show g.map reserve_case_value
        = g.map fun l => if reserve_positive l then (reserve_int l : ℚ) else 0 from
      List.map_congr_left fun l _ => reserve_case_value_eq l]
    exact sum_ite_eq_sum_filter reserve_positive _ g
  have hrow : (if 0 < g.length then (g.map reserve_case_value).sum / (g.length : ℚ) else 0)
      = (((g.filter reserve_positive).map fun l => (reserve_int l : ℚ)).sum) / (g.length : ℚ) := by
    by_cases h : 0 < g.length
    · rw [if_pos h, hsum]
    · have h0 : g.length = 0 := by omega
      rw [if_neg h, h0]
      norm_num
  exact ⟨rfl, rfl, hrow, hrow⟩

/-- C4 counterexample: a daily group with samples 100 and 0 reports daily
sewing speed 50, not the positive-only mean 100, although both its logs
survive the operator pipeline. -/
theorem c4_counterexample :
    op_filtered [c4log1, c4log2] = [c4log1, c4log2] ∧
    op_row_sewing_speed [c4log1, c4log2] = 50 ∧
    spec_positive_reserve_mean [c4log1, c4log2] = 100 := by
  refine ⟨?_, ?_, ?_⟩
  · norm_num [op_filtered, op_break_filter, op_duration_filter, op_exclude_id0_mode2,
      op_in_break, List.filter, op_duration_hours, adjusted_start_seconds,
      adjusted_end_seconds, start_seconds, end_seconds, time_seconds, c4log1, c4log2]
  · norm_num [op_row_sewing_speed, reserve_case_value, reserve_numeric, c4log1, c4log2]
  · norm_num [spec_positive_reserve_mean, reserve_positive, reserve_int,
      reserve_numeric, List.filter, c4log1, c4log2]

/-- C1 (amended): every log surviving the operator-family pipeline has a
clamped duration strictly between 0 and 11 hours (the 08:30-19:30 window
span); every log surviving the line/machine/global selection has raw
duration at most 67/6 hours (the 08:25-19:35 window span of 11h10m), but
that family applies no positive-duration filter, so a surviving log may
carry a negative duration into the bucket sums. -/
theorem c1_duration_bounds (logs : List MachineLog) (l : MachineLog) (vo : List String) :
    (l ∈ op_filtered logs → 0 < op_duration_hours l ∧ op_duration_hours l ≤ 11) ∧
    (l ∈ lm_filtered vo logs → lm_duration_hours l ≤ 67 / 6) := by
  constructor
  · intro hmem
    have hmem' : l ∈ op_break_filter (op_duration_filter (op_exclude_id0_mode2 logs)) := hmem
    have h1 := (List.mem_filter.mp hmem').1
    have h2 := (List.mem_filter.mp h1).2
    simp only [decide_eq_true_eq] at h2
    exact ⟨h2, op_duration_hours_le_eleven l⟩
  · intro hmem
    have hmem' : l ∈ lm_break_filter (lm_window_filter (lm_operator_filter vo logs)) := hmem
    have h1 := (List.mem_filter.mp (List.mem_filter.mp hmem').1).2
    simp only [Bool.and_eq_true, decide_eq_true_eq, ge_iff_le] at h1
    rw [lm_duration_hours, div_le_iff₀ (by norm_num : (0 : ℚ) < 3600)]
    obtain ⟨ha, hb⟩ := h1
    linarith

/-- C1 counterexample: the log 12:30:00-11:56:40 (end clock before start)
survives the whole line-family selection yet its duration is negative, so
the family neither clamps it nor filters out its non-positive duration. -/
theorem c1_counterexample :
    c1log ∈ lm_filtered ["A"] [c1log] ∧ lm_duration_hours c1log < 0 := by
  constructor
  · have : lm_filtered ["A"] [c1log] = [c1log] := by
      norm_num [lm_filtered, lm_break_filter, lm_window_filter, lm_operator_filter,
        lm_in_break, List.filter, start_seconds, end_seconds, time_seconds, c1log]
    rw [this]
    exact List.mem_singleton.mpr rfl
  · norm_num [lm_duration_hours, start_seconds, end_seconds, time_seconds, c1log]

/-- C1 witness: a 09:00-10:00 log survives both pipelines; its operator
duration is 1 hour and its line-family duration is below the window span. -/
theorem c1_witness :
    (0 < op_duration_hours c1wlog ∧ op_duration_hours c1wlog ≤ 11) ∧
    lm_duration_hours c1wlog ≤ 67 / 6 := by
  constructor
  · refine (c1_duration_bounds [c1wlog] c1wlog ["A"]).1 ?_
    have : op_filtered [c1wlog] = [c1wlog] := by
      norm_num [op_filtered, op_break_filter, op_duration_filter, op_exclude_id0_mode2,
        op_in_break, List.filter, op_duration_hours, adjusted_start_seconds,
        adjusted_end_seconds, start_seconds, end_seconds, time_seconds, c1wlog]
    rw [this]
    exact List.mem_singleton.mpr rfl
  · refine (c1_duration_bounds [c1wlog] c1wlog ["A"]).2 ?_
    have : lm_filtered ["A"] [c1wlog] = [c1wlog] := by
      norm_num [lm_filtered, lm_break_filter, lm_window_filter, lm_operator_filter,
        lm_in_break, List.filter, start_seconds, end_seconds, time_seconds, c1wlog]
    rw [this]
    exact List.mem_singleton.mpr rfl

/-- C6 (amended): the operator report's needle-runtime percentage sums skip
counts over Production-mode (mode 1) logs only, as the claim states; the
line report's numerator instead sums skip counts over ALL retained logs
regardless of mode.  In both, the ratio is against productive hours and is
0 when they are not positive. -/
theorem c6_needle_runtime (logs : List MachineLog) :
    SKIP_COUNT_percentage logs = (if 0 < total_production_hours logs then
      (((op_filtered logs).filter fun l => l.MODE = 1).map (·.SKIP_COUNT)).sum / 3600 /
        total_production_hours logs * 100 else 0) ∧
    line_SKIP_COUNT_percentage logs = (if 0 < line_total_productive_time logs then
      (logs.map (·.SKIP_COUNT)).sum / 3600 / line_total_productive_time logs * 100 else 0) ∧
    line_total_productive_time logs
      = ((logs.filter fun l => l.MODE = 1).map lm_duration_hours).sum := by
  refine ⟨rfl, ?_, line_total_sewing_hours_eq logs⟩
  unfold line_SKIP_COUNT_percentage
  rw [line_total_SKIP_COUNT_eq]

/-- C6 counterexample: two logs of one hour each, a mode-1 log with skip
count 3600 and a mode-2 log with skip count 3600; the line report's
needle-runtime percentage is 200, double the value 100 that a
Production-only numerator would give. -/
theorem c6_counterexample :
    line_SKIP_COUNT_percentage [c6log1, c6log2] = 200 ∧
    ((([c6log1, c6log2].filter fun l => l.MODE = 1).map (·.SKIP_COUNT)).sum / 3600 /
        line_total_productive_time [c6log1, c6log2] * 100) = 100 := by
  constructor
  · norm_num [line_SKIP_COUNT_percentage, line_total_SKIP_COUNT,
      line_total_productive_time, line_total_sewing_hours, line_row_sewing_hours,
      daily_dates, day_group, List.filter, List.dedup_cons_of_mem,
      List.dedup_cons_of_not_mem, lm_duration_hours, start_seconds, end_seconds,
      time_seconds, c6log1, c6log2]
  · norm_num [line_total_productive_time, line_total_sewing_hours,
      line_row_sewing_hours, daily_dates, day_group, List.filter,
      List.dedup_cons_of_mem, List.dedup_cons_of_not_mem, lm_duration_hours,
      start_seconds, end_seconds, time_seconds, c6log1, c6log2]

/-- C5: in the "all lines" roll-up summary, the combined average sewing
speed is the hours-weighted mean of the per-line average speeds
(`Σ speed·hours / Σ hours`, and 0 when the summed hours are 0, not a simple
mean), the combined averageMachines is the simple mean of the per-line
averages, and the hour and stitch-count totals are sums of the per-line
reported totals. -/
theorem c5_rollup_summary (logs : List MachineLog) :
    (0 < ((all_line_reports logs).map (·.totalHours)).sum →
      (lines_summary logs).averageSewingSpeed = pyRound2
        (((all_line_reports logs).map fun r => r.averageSewingSpeed * r.totalHours).sum /
          ((all_line_reports logs).map (·.totalHours)).sum)) ∧
    (((all_line_reports logs).map (·.totalHours)).sum = 0 →
      (lines_summary logs).averageSewingSpeed = 0) ∧
    (0 < (all_line_reports logs).length →
      (lines_summary logs).averageMachines = pyRound2
        (((all_line_reports logs).map (·.averageMachines)).sum /
          ((all_line_reports logs).length : ℚ))) ∧
    (lines_summary logs).totalHours
      = pyRound2 (((all_line_reports logs).map (·.totalHours)).sum) ∧
    (lines_summary logs).totalStitchCount
      = ((all_line_reports logs).map (·.totalStitchCount)).sum ∧
    (lines_summary logs).ptHours
      = pyRound2 (((all_line_reports logs).map (·.ptHours)).sum) := by
  refine ⟨fun h => ?_, fun h => ?_, fun h => ?_, rfl, rfl, rfl⟩
  · simp only [lines_summary]
    rw [if_pos h]
  · simp only [lines_summary]
    rw [h]
    simp [pyRound2_zero]
  · simp only [lines_summary]
    rw [if_pos h]

/-- C5 witness: with a single one-hour log on one line, the summed hours are
1 and the report count is 1, and the summary equals the weighted-mean and
simple-mean forms. -/
theorem c5_witness :
    0 < ((all_line_reports [c5log]).map (·.totalHours)).sum ∧
    (lines_summary [c5log]).averageSewingSpeed = pyRound2
      (((all_line_reports [c5log]).map fun r => r.averageSewingSpeed * r.totalHours).sum /
        ((all_line_reports [c5log]).map (·.totalHours)).sum) ∧
    0 < (all_line_reports [c5log]).length ∧
    (lines_summary [c5log]).averageMachines = pyRound2
      (((all_line_reports [c5log]).map (·.averageMachines)).sum /
        ((all_line_reports [c5log]).length : ℚ)) := by
  have hlen : 0 < (all_line_reports [c5log]).length := by
    norm_num [all_line_reports, line_numbers, c5log]
  have hsum : 0 < ((all_line_reports [c5log]).map (·.totalHours)).sum := by
    norm_num [all_line_reports, line_numbers, process_line_data, line_total_hours,
      line_row_daily_total_hours, line_row_sewing_hours, line_row_no_feeding_hours,
      line_row_meeting_hours, line_row_maintenance_hours, line_row_idle_hours,
      daily_dates, day_group, List.filter, lm_duration_hours, start_seconds,
      end_seconds, time_seconds, c5log, pyRound2, roundHalfEven]
  exact ⟨hsum, (c5_rollup_summary [c5log]).1 hsum, hlen,
    (c5_rollup_summary [c5log]).2.2.1 hlen⟩

end AFL
